import Mathlib

/-!
Shallow embedding of `plotnine/stats/stat_function.py` (class `stat_function`,
classmethod `compute_group`) and proofs of the specified properties.

Numbers are modelled as rationals (`ℚ`).  Python exceptions are modelled by the
`PErr` type and fallible computations return `Except PErr _`.  The polymorphic
scale/coordinate context (`scales`) is modelled structurally: attribute access
that can raise `AttributeError` in Python corresponds to an `Option` field
being `none`.
-/

/-- Python exceptions relevant to `compute_group`:
`PlotnineError` raised by the stat itself, `AttributeError` (missing
attribute, the exception class suppressed by `utils.suppress`), and any other
exception (`exception`) raised by user code such as a transform inverse. -/
inductive PErr where
  | plotnineError (msg : String)
  | attributeError
  | exception (msg : String)
  deriving DecidableEq, Repr

/-- A coordinate transform object (`scales.x.trans`): its `inverse` is applied
elementwise to the sampled array (numpy elementwise semantics); each element
application may raise any Python exception. -/
structure Transform where
  inverse : ℚ → Except PErr ℚ

/-- The x scale object (`scales.x`): `dimension` returns the observed extent
given a default, `trans` is the (possibly absent) coordinate transform.  An
absent `trans` attribute raises `AttributeError` on access in Python. -/
structure ScaleX where
  dimension : ℚ × ℚ → ℚ × ℚ
  trans : Option Transform

/-- The scales context passed to `compute_group`; accessing `scales.x` when no
x aesthetic is mapped raises `AttributeError`, modelled by `x = none`. -/
structure Scales where
  x : Option ScaleX

/-- A callable parameter value.  `vectorized` records
`isinstance(old_fun, (np.ufunc, np.vectorize))`; `call` takes the full
positional-argument list (the first positional is x) and the keyword
arguments, returning the numeric result.  A `np.ufunc`/`np.vectorize`
invocation on a whole array applies `call` elementwise. -/
structure Callable where
  vectorized : Bool
  call : List ℚ → List (String × ℚ) → ℚ

/-- The `fun` parameter: either an object with `__call__` or a non-callable
value (kept with its textual representation). -/
inductive FunParam where
  | callable (c : Callable)
  | notCallable (txt : String)

/-- The `args` parameter: a list/tuple, a dict, any other non-None value, or
None. -/
inductive Args where
  | posList (l : List ℚ)
  | kwDict (d : List (String × ℚ))
  | scalar (v : ℚ)
  | noArgs

/-- The parameters consumed by `compute_group` (`fun` is a Lean keyword, so
the field is named `fn`). -/
structure Params where
  fn : FunParam
  n : ℕ
  args : Args
  xlim : Option (ℚ × ℚ)

/-- A pandas DataFrame restricted to what the stat builds: an ordered list of
named numeric columns. -/
structure DataFrame where
  cols : List (String × List ℚ)
  deriving DecidableEq, Repr

/-- Column lookup by name. -/
def lookupCol (df : DataFrame) (name : String) : Option (List ℚ) :=
  df.cols.lookup name

/-- `"{}".format(xlim)` for the `xlim` parameter. -/
def formatXlim : Option (ℚ × ℚ) → String
  | none => "None"
  | some (a, b) => "(" ++ toString a ++ ", " ++ toString b ++ ")"

/-- `range_x = xlim or scales.x.dimension((0, 0))` guarded by
`try/except AttributeError`, which re-raises as a `PlotnineError` naming the
`xlim` value.  A non-`None` `xlim` is a non-empty tuple, hence truthy, so the
scales context is only consulted when `xlim` is `None`. -/
def resolveRange (scales : Scales) (xlim : Option (ℚ × ℚ)) :
    Except PErr (ℚ × ℚ) :=
  match xlim with
  | some r => Except.ok r
  | none =>
    match scales.x with
    | some sx => Except.ok (sx.dimension (0, 0))
    | none =>
      Except.error (PErr.plotnineError
        ("Missing 'x' aesthetic and 'xlim' is " ++ formatXlim xlim))

/-- `np.linspace(range_x[0], range_x[1], n)`: `n` evenly spaced samples from
`lo` to `hi` inclusive (in ℚ the forced endpoint `y[-1] = stop` of numpy is
already exact). -/
def linspace (lo hi : ℚ) (n : ℕ) : List ℚ :=
  (List.range n).map (fun i : ℕ => lo + (i : ℚ) * ((hi - lo) / ((n : ℚ) - 1)))

/-- Elementwise application of `trans.inverse` to the sampled array, stopping
at the first exception (numpy elementwise semantics). -/
def mapInverse (t : Transform) : List ℚ → Except PErr (List ℚ)
  | [] => Except.ok []
  | v :: rest =>
    match t.inverse v with
    | Except.error e => Except.error e
    | Except.ok w =>
      match mapInverse t rest with
      | Except.error e => Except.error e
      | Except.ok ws => Except.ok (w :: ws)

/-- `with suppress(AttributeError): x = scales.x.trans.inverse(x)`.
`AttributeError` — whether from the missing `scales.x` or `trans` attribute or
raised while applying the inverse — leaves `x` unchanged; any other exception
propagates. -/
def applyInverseSuppressed (scales : Scales) (xs : List ℚ) :
    Except PErr (List ℚ) :=
  match scales.x with
  | none => Except.ok xs
  | some sx =>
    match sx.trans with
    | none => Except.ok xs
    | some t =>
      match mapInverse t xs with
      | Except.ok ys => Except.ok ys
      | Except.error PErr.attributeError => Except.ok xs
      | Except.error e => Except.error e

/-- The argument binding performed when building the local wrapper `fun`:
positional and keyword arguments the underlying callable receives for a given
sample value `x`. -/
def bindArgs : Args → ℚ → List ℚ × List (String × ℚ)
  | Args.posList l, x => (x :: l, [])
  | Args.kwDict d, x => ([x], d)
  | Args.scalar v, x => ([x, v], [])
  | Args.noArgs, x => ([x], [])

/-- The wrapper `fun` built from `old_fun` and `args`, applied to one sample
value. -/
def boundFun (c : Callable) (args : Args) (x : ℚ) : ℚ :=
  let (ps, ks) := bindArgs args x
  c.call ps ks

/-- `y = fun(x)` when `old_fun` is a ufunc/np.vectorize (one array
invocation, elementwise by numpy semantics), else
`y = [fun(val) for val in x]`. -/
def computeY (c : Callable) (args : Args) (xs : List ℚ) : List ℚ :=
  if c.vectorized then
    xs.map (fun v => boundFun c args v)
  else
    xs.map (fun v => boundFun c args v)

/-- `stat_function.compute_group(data, scales, **params)`.  `data` is accepted
but never read, exactly as in the source. -/
def compute_group (data : DataFrame) (scales : Scales) (p : Params) :
    Except PErr DataFrame :=
  match resolveRange scales p.xlim with
  | Except.error e => Except.error e
  | Except.ok range_x =>
    match p.fn with
    | FunParam.notCallable _ =>
      Except.error (PErr.plotnineError
        ("stat_function requires parameter 'fun' to be " ++
         "a function or any other callable object"))
    | FunParam.callable c =>
      match applyInverseSuppressed scales (linspace range_x.1 range_x.2 p.n) with
      | Except.error e => Except.error e
      | Except.ok x =>
        Except.ok ⟨[("x", x), ("y", computeY c p.args x)]⟩

/-- The context exposes no inverse transform: either no x scale at all, or an
x scale without a `trans` attribute. -/
def noInverse (s : Scales) : Prop :=
  ∀ sx, s.x = some sx → sx.trans = none

lemma noInverse_applyInverseSuppressed (s : Scales) (h : noInverse s)
    (xs : List ℚ) : applyInverseSuppressed s xs = Except.ok xs := by
  cases hx : s.x with
  | none => simp [applyInverseSuppressed, hx]
  | some sx => simp [applyInverseSuppressed, hx, h sx hx]

lemma linspace_length (lo hi : ℚ) (n : ℕ) : (linspace lo hi n).length = n := by
  simp only [linspace, List.length_map, List.length_range]

lemma linspace_getElem (lo hi : ℚ) (n i : ℕ) (h : i < n) :
    (linspace lo hi n)[i]? =
      some (lo + (i : ℚ) * ((hi - lo) / ((n : ℚ) - 1))) := by
  unfold linspace
  rw [List.getElem?_map, List.getElem?_range h]
  rfl

lemma linspace_first (lo hi : ℚ) (n : ℕ) (h : 0 < n) :
    (linspace lo hi n)[0]? = some lo := by
  rw [linspace_getElem lo hi n 0 h]
  norm_num

lemma nat_cast_sub_one (n : ℕ) (h : 2 ≤ n) : ((n - 1 : ℕ) : ℚ) = (n : ℚ) - 1 := by
  have h1 : 1 ≤ n := le_trans (by norm_num) h
  push_cast [h1]
  ring

lemma linspace_last (lo hi : ℚ) (n : ℕ) (h : 2 ≤ n) :
    (linspace lo hi n)[n - 1]? = some hi := by
  have hlt : n - 1 < n := Nat.sub_lt (lt_of_lt_of_le (by norm_num) h) (by norm_num)
  rw [linspace_getElem lo hi n (n - 1) hlt, nat_cast_sub_one n h]
  have hne : (n : ℚ) - 1 ≠ 0 := by
    have h2 : (2 : ℚ) ≤ (n : ℚ) := by exact_mod_cast h
    intro hc
    linarith
  congr 1
  field_simp

lemma linspace_sorted (lo hi : ℚ) (n : ℕ) (hlt : lo < hi) (hn : 2 ≤ n) :
    List.Sorted (· < ·) (linspace lo hi n) := by
  have h2 : (2 : ℚ) ≤ (n : ℚ) := by exact_mod_cast hn
  have hs : 0 < (hi - lo) / ((n : ℚ) - 1) :=
    div_pos (by linarith) (by linarith)
  have hmono : ∀ a b : ℕ, a < b →
      lo + (a : ℚ) * ((hi - lo) / ((n : ℚ) - 1)) <
        lo + (b : ℚ) * ((hi - lo) / ((n : ℚ) - 1)) := by
    intro a b hab
    have hc : (a : ℚ) < (b : ℚ) := by exact_mod_cast hab
    have := mul_lt_mul_of_pos_right hc hs
    linarith
  show List.Pairwise (· < ·) (linspace lo hi n)
  unfold linspace
  exact List.pairwise_map.mpr
    ((List.pairwise_lt_range n).imp (fun hab => hmono _ _ hab))

lemma compute_group_ok (d : DataFrame) (scales : Scales) (p : Params)
    (c : Callable) (lo hi : ℚ) (xs : List ℚ)
    (hfn : p.fn = FunParam.callable c)
    (hr : resolveRange scales p.xlim = Except.ok (lo, hi))
    (hinv : applyInverseSuppressed scales (linspace lo hi p.n) = Except.ok xs) :
    compute_group d scales p =
      Except.ok ⟨[("x", xs), ("y", computeY c p.args xs)]⟩ := by
  simp only [compute_group, hr, hfn, hinv]

/-- C1: with a resolved domain `(lo, hi)`, `lo < hi`, `n ≥ 2` and a context
exposing no inverse transform, the x column of the table produced by
`compute_group` is a strictly increasing arithmetic sequence of length `n`
whose first element is `lo` and whose last element is `hi` (exact in ℚ). -/
theorem stat_function_C1_x_column (d : DataFrame) (scales : Scales)
    (p : Params) (c : Callable) (lo hi : ℚ)
    (hfn : p.fn = FunParam.callable c)
    (hr : resolveRange scales p.xlim = Except.ok (lo, hi))
    (hni : noInverse scales)
    (hlt : lo < hi) (hn : 2 ≤ p.n) :
    ∃ df, compute_group d scales p = Except.ok df ∧
      lookupCol df "x" = some (linspace lo hi p.n) ∧
      (linspace lo hi p.n).length = p.n ∧
      (linspace lo hi p.n)[0]? = some lo ∧
      (linspace lo hi p.n)[p.n - 1]? = some hi ∧
      List.Sorted (· < ·) (linspace lo hi p.n) ∧
      (∀ i : ℕ, i < p.n →
        (linspace lo hi p.n)[i]? =
          some (lo + (i : ℚ) * ((hi - lo) / ((p.n : ℚ) - 1)))) := by
  have hinv := noInverse_applyInverseSuppressed scales hni (linspace lo hi p.n)
  refine ⟨_, compute_group_ok d scales p c lo hi _ hfn hr hinv, ?_, ?_, ?_, ?_, ?_, ?_⟩
  · rfl
  · exact linspace_length lo hi p.n
  · exact linspace_first lo hi p.n (lt_of_lt_of_le (by norm_num) hn)
  · exact linspace_last lo hi p.n hn
  · exact linspace_sorted lo hi p.n hlt hn
  · exact fun i hi2 => linspace_getElem lo hi p.n i hi2

def c0 : Callable := ⟨false, fun ps _ => 2 * ps.headD 0⟩

def s0 : Scales := ⟨none⟩

def p0 : Params := ⟨FunParam.callable c0, 3, Args.noArgs, some (0, 1)⟩

def d0 : DataFrame := ⟨[]⟩

/-- Witness for C1 at `xlim = (0, 1)`, `n = 3`, no x scale. -/
theorem stat_function_C1_witness :
    ∃ df, compute_group d0 s0 p0 = Except.ok df ∧
      lookupCol df "x" = some (linspace 0 1 p0.n) ∧
      (linspace 0 1 p0.n).length = p0.n ∧
      (linspace 0 1 p0.n)[0]? = some 0 ∧
      (linspace 0 1 p0.n)[p0.n - 1]? = some 1 ∧
      List.Sorted (· < ·) (linspace 0 1 p0.n) ∧
      (∀ i : ℕ, i < p0.n →
        (linspace 0 1 p0.n)[i]? =
          some (0 + (i : ℚ) * ((1 - 0) / ((p0.n : ℚ) - 1)))) :=
  stat_function_C1_x_column d0 s0 p0 c0 0 1 rfl rfl
    (fun sx h => by simp [s0] at h) (by norm_num) (by decide)

lemma computeY_eq_map (c : Callable) (args : Args) (xs : List ℚ) :
    computeY c args xs = xs.map (boundFun c args) := by
  unfold computeY
  split <;> rfl

lemma compute_group_ok_inv (d : DataFrame) (scales : Scales) (p : Params)
    (df : DataFrame) (hok : compute_group d scales p = Except.ok df) :
    ∃ lo hi c xs, resolveRange scales p.xlim = Except.ok (lo, hi) ∧
      p.fn = FunParam.callable c ∧
      applyInverseSuppressed scales (linspace lo hi p.n) = Except.ok xs ∧
      df = ⟨[("x", xs), ("y", computeY c p.args xs)]⟩ := by
  unfold compute_group at hok
  cases hr : resolveRange scales p.xlim with
  | error e => simp [hr] at hok
  | ok rng =>
    obtain ⟨lo, hi⟩ := rng
    simp only [hr] at hok
    cases hf : p.fn with
    | notCallable t => simp [hf] at hok
    | callable c =>
      simp only [hf] at hok
      cases hv : applyInverseSuppressed scales (linspace lo hi p.n) with
      | error e => simp [hv] at hok
      | ok xs =>
        simp only [hv, Except.ok.injEq] at hok
        exact ⟨lo, hi, c, xs, rfl, rfl, hv, hok.symm⟩

lemma mapInverse_length (t : Transform) :
    ∀ xs ys : List ℚ, mapInverse t xs = Except.ok ys → ys.length = xs.length := by
  intro xs
  induction xs with
  | nil =>
    intro ys h
    simp only [mapInverse, Except.ok.injEq] at h
    rw [← h]
  | cons v rest ih =>
    intro ys h
    unfold mapInverse at h
    cases hv : t.inverse v with
    | error e => rw [hv] at h; exact absurd h (by simp)
    | ok w =>
      rw [hv] at h
      cases hr : mapInverse t rest with
      | error e => rw [hr] at h; exact absurd h (by simp)
      | ok ws =>
        rw [hr] at h
        simp only [Except.ok.injEq] at h
        rw [← h]
        simp [ih ws hr]

lemma applyInverseSuppressed_length (s : Scales) (xs ys : List ℚ)
    (h : applyInverseSuppressed s xs = Except.ok ys) : ys.length = xs.length := by
  unfold applyInverseSuppressed at h
  cases hx : s.x with
  | none => simp only [hx, Except.ok.injEq] at h; rw [← h]
  | some sx =>
    simp only [hx] at h
    cases htr : sx.trans with
    | none => simp only [htr, Except.ok.injEq] at h; rw [← h]
    | some t =>
      simp only [htr] at h
      cases hm : mapInverse t xs with
      | ok ws =>
        simp only [hm, Except.ok.injEq] at h
        rw [← h]
        exact mapInverse_length t xs ws hm
      | error e =>
        simp only [hm] at h
        cases e with
        | attributeError => simp only [Except.ok.injEq] at h; rw [← h]
        | plotnineError msg => simp at h
        | exception msg => simp at h

/-- C2: on every successful run, the y column has the same length as the x
column and each y value is the bound callable applied to the corresponding
(post inverse-transform) x value; this holds whether the callable is
vectorized (single array invocation, `c.vectorized = true`) or not
(per-element invocations), since both paths apply `boundFun` in sample
order. -/
theorem stat_function_C2_y_elementwise (d : DataFrame) (scales : Scales)
    (p : Params) (c : Callable) (df : DataFrame)
    (hfn : p.fn = FunParam.callable c)
    (hok : compute_group d scales p = Except.ok df) :
    ∃ xs ys, lookupCol df "x" = some xs ∧ lookupCol df "y" = some ys ∧
      ys.length = xs.length ∧
      ∀ i : ℕ, ys[i]? = Option.map (boundFun c p.args) xs[i]? := by
  obtain ⟨lo, hi, c', xs, hr, hfn', hv, hdf⟩ :=
    compute_group_ok_inv d scales p df hok
  have hc : c' = c := by
    rw [hfn] at hfn'
    injection hfn' with h
    exact h.symm
  subst hc hdf
  refine ⟨xs, computeY c' p.args xs, rfl, rfl, ?_, ?_⟩
  · rw [computeY_eq_map, List.length_map]
  · intro i
    rw [computeY_eq_map, List.getElem?_map]

/-- Witness for C2 at the concrete run `compute_group d0 s0 p0`. -/
theorem stat_function_C2_witness :
    ∃ xs ys,
      lookupCol ⟨[("x", linspace 0 1 3),
                  ("y", computeY c0 Args.noArgs (linspace 0 1 3))]⟩ "x" = some xs ∧
      lookupCol ⟨[("x", linspace 0 1 3),
                  ("y", computeY c0 Args.noArgs (linspace 0 1 3))]⟩ "y" = some ys ∧
      ys.length = xs.length ∧
      ∀ i : ℕ, ys[i]? = Option.map (boundFun c0 p0.args) xs[i]? :=
  stat_function_C2_y_elementwise d0 s0 p0 c0
    ⟨[("x", linspace 0 1 3), ("y", computeY c0 Args.noArgs (linspace 0 1 3))]⟩
    rfl rfl

/-- C3: on every successful run the returned table has column list exactly
`["x", "y"]`, both columns have length equal to the sample count `n`, and the
rows follow ascending sample order: the i-th row holds the i-th (possibly
inverse-transformed) sample and the callable's value at it. -/
theorem stat_function_C3_table_shape (d : DataFrame) (scales : Scales)
    (p : Params) (df : DataFrame)
    (hok : compute_group d scales p = Except.ok df) :
    df.cols.map Prod.fst = ["x", "y"] ∧
    ∃ c lo hi xs, p.fn = FunParam.callable c ∧
      resolveRange scales p.xlim = Except.ok (lo, hi) ∧
      applyInverseSuppressed scales (linspace lo hi p.n) = Except.ok xs ∧
      lookupCol df "x" = some xs ∧
      lookupCol df "y" = some (computeY c p.args xs) ∧
      xs.length = p.n ∧ (computeY c p.args xs).length = p.n := by
  obtain ⟨lo, hi, c, xs, hr, hfn, hv, hdf⟩ :=
    compute_group_ok_inv d scales p df hok
  subst hdf
  have hlen : xs.length = p.n := by
    rw [applyInverseSuppressed_length scales (linspace lo hi p.n) xs hv]
    exact linspace_length lo hi p.n
  refine ⟨rfl, c, lo, hi, xs, hfn, hr, hv, rfl, rfl, hlen, ?_⟩
  rw [computeY_eq_map, List.length_map]
  exact hlen

/-- Witness for C3 at the concrete run `compute_group d0 s0 p0`. -/
theorem stat_function_C3_witness :
    (DataFrame.cols ⟨[("x", linspace 0 1 3),
                      ("y", computeY c0 Args.noArgs (linspace 0 1 3))]⟩).map
        Prod.fst = ["x", "y"] ∧
    ∃ c lo hi xs, p0.fn = FunParam.callable c ∧
      resolveRange s0 p0.xlim = Except.ok (lo, hi) ∧
      applyInverseSuppressed s0 (linspace lo hi p0.n) = Except.ok xs ∧
      lookupCol ⟨[("x", linspace 0 1 3),
                  ("y", computeY c0 Args.noArgs (linspace 0 1 3))]⟩ "x" = some xs ∧
      lookupCol ⟨[("x", linspace 0 1 3),
                  ("y", computeY c0 Args.noArgs (linspace 0 1 3))]⟩ "y" =
        some (computeY c p0.args xs) ∧
      xs.length = p0.n ∧ (computeY c p0.args xs).length = p0.n :=
  stat_function_C3_table_shape d0 s0 p0
    ⟨[("x", linspace 0 1 3), ("y", computeY c0 Args.noArgs (linspace 0 1 3))]⟩
    rfl

/-- A scales context with the dimension function replaced and everything else
(the presence of an x scale and its transform) kept. -/
def setDimension (s : Scales) (dim : ℚ × ℚ → ℚ × ℚ) : Scales :=
  ⟨s.x.map (fun sx => ⟨dim, sx.trans⟩)⟩

lemma applyInverseSuppressed_setDimension (s : Scales)
    (dim : ℚ × ℚ → ℚ × ℚ) (xs : List ℚ) :
    applyInverseSuppressed (setDimension s dim) xs =
      applyInverseSuppressed s xs := by
  cases hx : s.x with
  | none => simp [applyInverseSuppressed, setDimension, hx]
  | some sx => simp [applyInverseSuppressed, setDimension, hx]

/-- C4: a provided `xlim` is used verbatim as the sampling domain, and the
context's extent is then never consulted — replacing the context's
`dimension` function changes nothing about the run; only with `xlim = None`
is the context queried for `scales.x.dimension((0, 0))`. -/
theorem stat_function_C4_domain_resolution (d : DataFrame) (s s2 : Scales)
    (p : Params) (r : ℚ × ℚ) (dim : ℚ × ℚ → ℚ × ℚ) (sx : ScaleX)
    (hxlim : p.xlim = some r) (hs2 : s2.x = some sx) :
    resolveRange s (some r) = Except.ok r ∧
    compute_group d (setDimension s dim) p = compute_group d s p ∧
    resolveRange s2 none = Except.ok (sx.dimension (0, 0)) := by
  refine ⟨rfl, ?_, by simp [resolveRange, hs2]⟩
  have h1 : resolveRange (setDimension s dim) p.xlim = Except.ok r := by
    rw [hxlim]; rfl
  have h2 : resolveRange s p.xlim = Except.ok r := by
    rw [hxlim]; rfl
  simp only [compute_group, h1, h2,
    applyInverseSuppressed_setDimension]

/-- Witness for C4 with `xlim = (0, 1)` and a context carrying a dimension
function. -/
theorem stat_function_C4_witness :
    resolveRange s0 (some (0, 1)) = Except.ok (0, 1) ∧
    compute_group d0 (setDimension s0 (fun _ => (5, 7))) p0 =
      compute_group d0 s0 p0 ∧
    resolveRange ⟨some ⟨fun _ => (2, 5), none⟩⟩ none =
      Except.ok (ScaleX.dimension ⟨fun _ => (2, 5), none⟩ (0, 0)) :=
  stat_function_C4_domain_resolution d0 s0 ⟨some ⟨fun _ => (2, 5), none⟩⟩ p0
    (0, 1) (fun _ => (5, 7)) ⟨fun _ => (2, 5), none⟩ rfl rfl

/-- C5: with no `xlim` and a context that cannot supply an x extent
(`scales.x` absent), `compute_group` raises a `PlotnineError` whose message
names the attempted `xlim` value (`None`), and produces no result table. -/
theorem stat_function_C5_missing_domain (d : DataFrame) (scales : Scales)
    (p : Params) (hxlim : p.xlim = none) (hx : scales.x = none) :
    compute_group d scales p =
      Except.error (PErr.plotnineError
        "Missing 'x' aesthetic and 'xlim' is None") ∧
    ∀ df, compute_group d scales p ≠ Except.ok df := by
  have hr : resolveRange scales p.xlim =
      Except.error (PErr.plotnineError
        "Missing 'x' aesthetic and 'xlim' is None") := by
    rw [hxlim]
    unfold resolveRange
    rw [hx]
    rfl
  refine ⟨?_, ?_⟩
  · simp only [compute_group, hr]
  · intro df hdf
    simp only [compute_group, hr] at hdf
    exact Except.noConfusion hdf
/-- Witness for C5: no `xlim`, no x scale. -/
theorem stat_function_C5_witness :
    compute_group d0 s0 ⟨FunParam.callable c0, 3, Args.noArgs, none⟩ =
      Except.error (PErr.plotnineError
        "Missing 'x' aesthetic and 'xlim' is None") ∧
    ∀ df, compute_group d0 s0 ⟨FunParam.callable c0, 3, Args.noArgs, none⟩ ≠
      Except.ok df :=
  stat_function_C5_missing_domain d0 s0
    ⟨FunParam.callable c0, 3, Args.noArgs, none⟩ rfl rfl

/-- C6: with a resolvable domain but a non-callable `fun` parameter,
`compute_group` raises a `PlotnineError` stating that the parameter must be a
function or any other callable object, and produces no result table. -/
theorem stat_function_C6_non_callable (d : DataFrame) (scales : Scales)
    (p : Params) (txt : String) (rng : ℚ × ℚ)
    (hfn : p.fn = FunParam.notCallable txt)
    (hr : resolveRange scales p.xlim = Except.ok rng) :
    compute_group d scales p =
      Except.error (PErr.plotnineError
        "stat_function requires parameter 'fun' to be a function or any other callable object") ∧
    ∀ df, compute_group d scales p ≠ Except.ok df := by
  refine ⟨?_, ?_⟩
  · simp only [compute_group, hr, hfn]
    rfl
  · intro df hdf
    simp only [compute_group, hr, hfn] at hdf
    exact Except.noConfusion hdf
/-- Witness for C6: `fun` is the plain number 5, `xlim = (0, 1)`. -/
theorem stat_function_C6_witness :
    compute_group d0 s0 ⟨FunParam.notCallable "5", 3, Args.noArgs, some (0, 1)⟩ =
      Except.error (PErr.plotnineError
        "stat_function requires parameter 'fun' to be a function or any other callable object") ∧
    ∀ df,
      compute_group d0 s0 ⟨FunParam.notCallable "5", 3, Args.noArgs, some (0, 1)⟩ ≠
        Except.ok df :=
  stat_function_C6_non_callable d0 s0
    ⟨FunParam.notCallable "5", 3, Args.noArgs, some (0, 1)⟩ "5" (0, 1) rfl rfl

/-- C7: the extra-argument binding resolves into exactly four cases: an
ordered sequence is appended as positional arguments after x, a mapping is
passed as keyword arguments, any other non-None value is one extra positional
argument, and with no extra arguments the callable receives x alone. -/
theorem stat_function_C7_arg_binding (c : Callable) (x : ℚ) :
    (∀ l, boundFun c (Args.posList l) x = c.call (x :: l) []) ∧
    (∀ kw, boundFun c (Args.kwDict kw) x = c.call [x] kw) ∧
    (∀ v, boundFun c (Args.scalar v) x = c.call [x, v] []) ∧
    boundFun c Args.noArgs x = c.call [x] [] :=
  ⟨fun _ => rfl, fun _ => rfl, fun _ => rfl, rfl⟩

/-- A transform whose inverse raises `AttributeError` while being applied
(the capability is present; the failure happens during application). -/
def t8 : Transform := ⟨fun _ => Except.error PErr.attributeError⟩

def s8 : Scales := ⟨some ⟨fun _ => (0, 1), some t8⟩⟩

def p8 : Params := ⟨FunParam.callable c0, 2, Args.noArgs, some (0, 1)⟩

/-- Counterexample to C8 as stated: the context `s8` does expose an inverse
transform (the capability is present), yet the `AttributeError` raised while
applying it is silently absorbed — `compute_group` succeeds with the
untransformed x values instead of propagating the failure, because
`suppress(AttributeError)` covers the whole statement, not only the
capability check. -/
theorem stat_function_C8_counterexample :
    mapInverse t8 (linspace 0 1 p8.n) = Except.error PErr.attributeError ∧
    compute_group d0 s8 p8 =
      Except.ok ⟨[("x", linspace 0 1 p8.n),
                  ("y", computeY c0 Args.noArgs (linspace 0 1 p8.n))]⟩ :=
  ⟨rfl, rfl⟩

/-- C8 amended: absence of the inverse-transform capability is silently
skipped; a failure other than `AttributeError` raised while applying the
inverse propagates (also through `compute_group` to the caller); but an
`AttributeError` raised during application is likewise silently absorbed,
leaving the sampled x values untransformed. -/
theorem stat_function_C8_amended_suppression (s : Scales) (xs : List ℚ) :
    (noInverse s → applyInverseSuppressed s xs = Except.ok xs) ∧
    (∀ sx t e, s.x = some sx → sx.trans = some t →
      mapInverse t xs = Except.error e →
      ((e ≠ PErr.attributeError →
          applyInverseSuppressed s xs = Except.error e) ∧
       (e = PErr.attributeError →
          applyInverseSuppressed s xs = Except.ok xs))) ∧
    (∀ (d : DataFrame) (p : Params) (c : Callable) (lo hi : ℚ) (e : PErr),
      p.fn = FunParam.callable c →
      resolveRange s p.xlim = Except.ok (lo, hi) →
      applyInverseSuppressed s (linspace lo hi p.n) = Except.error e →
      compute_group d s p = Except.error e) := by
  refine ⟨fun h => noInverse_applyInverseSuppressed s h xs, ?_, ?_⟩
  · intro sx t e hsx ht hm
    refine ⟨?_, ?_⟩
    · intro hne
      cases e with
      | attributeError => exact absurd rfl hne
      | plotnineError m => simp [applyInverseSuppressed, hsx, ht, hm]
      | exception m => simp [applyInverseSuppressed, hsx, ht, hm]
    · intro heq
      subst heq
      simp [applyInverseSuppressed, hsx, ht, hm]
  · intro d p c lo hi e hfn hr hv
    simp only [compute_group, hr, hfn, hv]

/-- A transform whose inverse raises a non-`AttributeError` exception during
application. -/
def tEx : Transform := ⟨fun _ => Except.error (PErr.exception "boom")⟩

def sEx : Scales := ⟨some ⟨fun _ => (0, 1), some tEx⟩⟩

def pEx : Params := ⟨FunParam.callable c0, 2, Args.noArgs, some (0, 1)⟩

/-- Witness instantiating the amended C8: a `"boom"` exception raised while
applying the inverse propagates through `compute_group`, and the absorbed
`AttributeError` case and the benign-absence case hold at concrete inputs. -/
theorem stat_function_C8_amended_witness :
    applyInverseSuppressed s0 [0] = Except.ok [0] ∧
    applyInverseSuppressed sEx (linspace 0 1 pEx.n) =
      Except.error (PErr.exception "boom") ∧
    compute_group d0 sEx pEx = Except.error (PErr.exception "boom") ∧
    applyInverseSuppressed s8 (linspace 0 1 p8.n) =
      Except.ok (linspace 0 1 p8.n) := by
  have hEx := stat_function_C8_amended_suppression sEx (linspace 0 1 pEx.n)
  have h8 := stat_function_C8_amended_suppression s8 (linspace 0 1 p8.n)
  have h0 := stat_function_C8_amended_suppression s0 ([0] : List ℚ)
  have hprop : applyInverseSuppressed sEx (linspace 0 1 pEx.n) =
      Except.error (PErr.exception "boom") :=
    (hEx.2.1 ⟨fun _ => (0, 1), some tEx⟩ tEx (PErr.exception "boom")
      rfl rfl rfl).1 (by simp)
  refine ⟨h0.1 (fun sx h => by simp [s0] at h), hprop, ?_, ?_⟩
  · exact hEx.2.2 d0 pEx c0 0 1 (PErr.exception "boom") rfl rfl hprop
  · exact (h8.2.1 ⟨fun _ => (0, 1), some t8⟩ t8 PErr.attributeError
      rfl rfl rfl).2 rfl

/-- C9: `compute_group` is deterministic and idempotent — two invocations on
identical inputs (data, scales context, parameters, with the callable a pure
function) return identical result tables. -/
theorem stat_function_C9_deterministic (d d2 : DataFrame) (s s2 : Scales)
    (p p2 : Params) (hd : d = d2) (hs : s = s2) (hp : p = p2) :
    compute_group d s p = compute_group d2 s2 p2 := by
  subst hd hs hp
  rfl

/-- Witness for C9 at the concrete run `compute_group d0 s0 p0`. -/
theorem stat_function_C9_witness :
    compute_group d0 s0 p0 = compute_group d0 s0 p0 :=
  stat_function_C9_deterministic d0 d0 s0 s0 p0 p0 rfl rfl rfl

/-- C10: domain resolution runs before callable validation — when the domain
is missing (no `xlim`, no x scale) and `fun` is non-callable, the error is
the missing-domain `PlotnineError`, not the non-callable one. -/
theorem stat_function_C10_error_order (d : DataFrame) (scales : Scales)
    (p : Params) (txt : String)
    (hxlim : p.xlim = none) (hx : scales.x = none)
    (hfn : p.fn = FunParam.notCallable txt) :
    compute_group d scales p =
      Except.error (PErr.plotnineError
        "Missing 'x' aesthetic and 'xlim' is None") ∧
    compute_group d scales p ≠
      Except.error (PErr.plotnineError
        "stat_function requires parameter 'fun' to be a function or any other callable object") := by
  have hr : resolveRange scales p.xlim =
      Except.error (PErr.plotnineError
        "Missing 'x' aesthetic and 'xlim' is None") := by
    rw [hxlim]
    unfold resolveRange
    rw [hx]
    rfl
  have h1 : compute_group d scales p =
      Except.error (PErr.plotnineError
        "Missing 'x' aesthetic and 'xlim' is None") := by
    simp only [compute_group, hr]
  refine ⟨h1, ?_⟩
  rw [h1]
  intro hcontra
  injection hcontra with h2
  injection h2 with h3
  exact absurd h3 (by decide)

/-- Witness for C10: `fun` is the plain number 7, no `xlim`, no x scale. -/
theorem stat_function_C10_witness :
    compute_group d0 s0 ⟨FunParam.notCallable "7", 3, Args.noArgs, none⟩ =
      Except.error (PErr.plotnineError
        "Missing 'x' aesthetic and 'xlim' is None") ∧
    compute_group d0 s0 ⟨FunParam.notCallable "7", 3, Args.noArgs, none⟩ ≠
      Except.error (PErr.plotnineError
        "stat_function requires parameter 'fun' to be a function or any other callable object") :=
  stat_function_C10_error_order d0 s0
    ⟨FunParam.notCallable "7", 3, Args.noArgs, none⟩ "7" rfl rfl rfl
